import Mathlib

/-!
Shallow embedding of the cafe-management frontend (TypeScript/React) client logic.

The embedding covers:
* the guest menu page cart (`addToCart`, `removeFromCart`, `getTotalItems`,
  `getTotalPrice`, `handleCheckout`) from `src/app/menu/page.tsx`;
* the dashboard orders page draft-order handlers and quick status update
  (`handleAddProductToOrder`, `handleRemoveProductFromOrder`,
  `handleQuickStatusUpdate`) from `src/app/dashboard/orders/page.tsx`;
* the axios response interceptor and `handleApiError` from the API library.

TypeScript numbers that are used as integers (ids, quantities, millisecond
delays) are modelled as `Int`/`Nat`; product prices are modelled as `ℚ`
(all prices appearing in the claims are exactly representable).
JavaScript truthiness on nullable strings/numbers is modelled explicitly.
-/

/-- `Product` from the API library (`export interface Product`). -/
structure Product where
  id : Int
  name : String
  description : String
  price : ℚ
  category : String
  imageUrl : String
deriving DecidableEq, Repr

/-- `CartItem extends Product { quantity: number }` from `src/app/menu/page.tsx`. -/
structure CartItem extends Product where
  quantity : Int
deriving DecidableEq, Repr

/-- `addToCart` from `src/app/menu/page.tsx`:
if a line with the product's id exists (`prevCart.find`), map over the cart
incrementing the quantity of every line with that id; otherwise append a new
line `{ ...product, quantity: 1 }`. -/
def addToCart (cart : List CartItem) (product : Product) : List CartItem :=
  match cart.find? (fun item => item.id == product.id) with
  | some _ =>
      cart.map (fun item =>
        if item.id == product.id then { item with quantity := item.quantity + 1 } else item)
  | none => cart ++ [{ product with quantity := 1 }]

/-- `removeFromCart` from `src/app/menu/page.tsx`:
if a line with the id exists and its quantity is `> 1`, map over the cart
decrementing the quantity of every line with that id; otherwise filter out
every line with that id. -/
def removeFromCart (cart : List CartItem) (productId : Int) : List CartItem :=
  match cart.find? (fun item => item.id == productId) with
  | some existingItem =>
      if existingItem.quantity > 1 then
        cart.map (fun item =>
          if item.id == productId then { item with quantity := item.quantity - 1 } else item)
      else
        cart.filter (fun item => item.id != productId)
  | none => cart.filter (fun item => item.id != productId)

/-- `getTotalItems` from `src/app/menu/page.tsx`: `reduce` of quantities from 0. -/
def getTotalItems (cart : List CartItem) : Int :=
  cart.foldl (fun total item => total + item.quantity) 0

/-- `getTotalPrice` from `src/app/menu/page.tsx`: `reduce` of price×quantity from 0. -/
def getTotalPrice (cart : List CartItem) : ℚ :=
  cart.foldl (fun total item => total + item.price * (item.quantity : ℚ)) 0

/-- Product A of the spec's worked example: priced 3.50. -/
def productA : Product :=
  { id := 1, name := "Product A", description := "", price := (3.5 : ℚ)
  , category := "drinks", imageUrl := "" }

/-- Product B of the spec's worked example: priced 5.00. -/
def productB : Product :=
  { id := 2, name := "Product B", description := "", price := (5 : ℚ)
  , category := "drinks", imageUrl := "" }

/-- The spec's worked example cart: A ×2 and B ×1. -/
def exampleCart : List CartItem :=
  [{ productA with quantity := 2 }, { productB with quantity := 1 }]

lemma foldl_add_sum {α M : Type} [AddCommMonoid M] (f : α → M) :
    ∀ (l : List α) (a : M), l.foldl (fun t x => t + f x) a = a + (l.map f).sum
  | [], a => by simp
  | x :: l, a => by
      rw [List.foldl_cons, foldl_add_sum f l (a + f x)]
      simp [add_assoc]

/-- C3: `getTotalItems` is the sum of the quantities, `getTotalPrice` the sum of
price×quantity, both 0 on the empty cart, and on the worked example cart
(A at 3.50 ×2, B at 5.00 ×1) they evaluate to 3 and 12.00. -/
theorem cart_totals_spec (cart : List CartItem) :
    getTotalItems cart = (cart.map (fun item => item.quantity)).sum
    ∧ getTotalPrice cart = (cart.map (fun item => item.price * (item.quantity : ℚ))).sum
    ∧ getTotalItems [] = 0
    ∧ getTotalPrice [] = 0
    ∧ getTotalItems exampleCart = 3
    ∧ getTotalPrice exampleCart = 12 := by
  refine ⟨?_, ?_, rfl, rfl, by decide, ?_⟩
  · rw [getTotalItems, foldl_add_sum]; simp
  · rw [getTotalPrice, foldl_add_sum]; simp
  · show getTotalPrice exampleCart = 12
    rw [getTotalPrice]
    simp [exampleCart, productA, productB]
    norm_num

lemma find?_append_first_match (l₁ l₂ : List CartItem) (item : CartItem) (pid : Int)
    (h₁ : ∀ it ∈ l₁, it.id ≠ pid) (hit : item.id = pid) :
    (l₁ ++ item :: l₂).find? (fun it => it.id == pid) = some item := by
  induction l₁ with
  | nil => simp [List.find?_cons_of_pos, hit]
  | cons hd tl ih =>
      rw [List.cons_append, List.find?_cons_of_neg]
      · exact ih (fun it hm => h₁ it (List.mem_cons_of_mem hd hm))
      · simpa using h₁ hd (List.mem_cons_self hd tl)

lemma find?_eq_none_of_all_ne (l : List CartItem) (pid : Int)
    (h : ∀ it ∈ l, it.id ≠ pid) :
    l.find? (fun it => it.id == pid) = none := by
  rw [List.find?_eq_none]
  intro it hm
  simpa using h it hm

lemma map_update_of_all_ne (l : List CartItem) (pid : Int) (f : CartItem → CartItem)
    (h : ∀ it ∈ l, it.id ≠ pid) :
    l.map (fun it => if it.id == pid then f it else it) = l := by
  induction l with
  | nil => rfl
  | cons hd tl ih =>
      have hhd : (hd.id == pid) = false := by
        simpa using h hd (List.mem_cons_self hd tl)
      rw [List.map_cons, ih (fun it hm => h it (List.mem_cons_of_mem hd hm)), hhd]
      simp

lemma filter_ne_of_all_ne (l : List CartItem) (pid : Int)
    (h : ∀ it ∈ l, it.id ≠ pid) :
    l.filter (fun it => it.id != pid) = l := by
  rw [List.filter_eq_self]
  intro it hm
  simpa using h it hm

/-- C4: `addToCart` appends a quantity-1 line when no line carries the product's
id; when the cart carries exactly one line with that id, it increments that
line's quantity by exactly 1 in place (any current quantity, no upper bound);
and adding a fresh product twice yields a single line of quantity 2. -/
theorem addToCart_spec (cart : List CartItem) (p : Product) :
    ((∀ it ∈ cart, it.id ≠ p.id) →
        addToCart cart p = cart ++ [{ p with quantity := 1 }])
    ∧ (∀ l₁ item l₂, cart = l₁ ++ item :: l₂ → item.id = p.id →
        (∀ it ∈ l₁, it.id ≠ p.id) → (∀ it ∈ l₂, it.id ≠ p.id) →
        addToCart cart p = l₁ ++ { item with quantity := item.quantity + 1 } :: l₂)
    ∧ ((∀ it ∈ cart, it.id ≠ p.id) →
        addToCart (addToCart cart p) p = cart ++ [{ p with quantity := 2 }]) := by
  have hfresh : (∀ it ∈ cart, it.id ≠ p.id) →
      addToCart cart p = cart ++ [{ p with quantity := 1 }] := by
    intro h
    rw [addToCart, find?_eq_none_of_all_ne cart p.id h]
  have hexist : ∀ l₁ (item : CartItem) l₂, cart = l₁ ++ item :: l₂ → item.id = p.id →
      (∀ it ∈ l₁, it.id ≠ p.id) → (∀ it ∈ l₂, it.id ≠ p.id) →
      addToCart cart p = l₁ ++ { item with quantity := item.quantity + 1 } :: l₂ := by
    intro l₁ item l₂ hc hid h₁ h₂
    subst hc
    rw [addToCart, find?_append_first_match l₁ l₂ item p.id h₁ hid]
    rw [List.map_append, List.map_cons]
    rw [map_update_of_all_ne l₁ p.id _ h₁, map_update_of_all_ne l₂ p.id _ h₂]
    simp [hid]
  refine ⟨hfresh, hexist, ?_⟩
  intro h
  rw [hfresh h]
  rw [addToCart, find?_append_first_match cart [] { p with quantity := 1 } p.id h rfl]
  rw [List.map_append, List.map_cons]
  rw [map_update_of_all_ne cart p.id _ h]
  simp

/-- Witness for `addToCart_spec`: adding product A to the empty cart creates a
quantity-1 line, and adding it again yields a single quantity-2 line. -/
theorem addToCart_spec_witness :
    addToCart [] productA = [{ productA with quantity := 1 }]
    ∧ addToCart (addToCart [] productA) productA = [{ productA with quantity := 2 }] :=
  ⟨by simpa using (addToCart_spec [] productA).1 (by simp),
   by simpa using (addToCart_spec [] productA).2.2 (by simp)⟩

/-- C5: on a cart carrying exactly one line with the given product id,
`removeFromCart` decrements that line's quantity by exactly 1 when the
quantity exceeds 1, and deletes the line entirely when the quantity is 1. -/
theorem removeFromCart_spec (l₁ l₂ : List CartItem) (item : CartItem) (pid : Int)
    (hid : item.id = pid)
    (h₁ : ∀ it ∈ l₁, it.id ≠ pid) (h₂ : ∀ it ∈ l₂, it.id ≠ pid) :
    (item.quantity > 1 →
        removeFromCart (l₁ ++ item :: l₂) pid
          = l₁ ++ { item with quantity := item.quantity - 1 } :: l₂)
    ∧ (item.quantity = 1 → removeFromCart (l₁ ++ item :: l₂) pid = l₁ ++ l₂) := by
  have hf := find?_append_first_match l₁ l₂ item pid h₁ hid
  constructor
  · intro hq
    simp only [removeFromCart, hf]
    rw [if_pos hq]
    rw [List.map_append, List.map_cons]
    rw [map_update_of_all_ne l₁ pid _ h₁, map_update_of_all_ne l₂ pid _ h₂]
    simp [hid]
  · intro hq
    simp only [removeFromCart, hf]
    rw [if_neg (by omega)]
    rw [List.filter_append, List.filter_cons]
    rw [filter_ne_of_all_ne l₁ pid h₁, filter_ne_of_all_ne l₂ pid h₂]
    simp [hid]

/-- Witness for `removeFromCart_spec`: removing product A from a cart where it
has quantity 2 decrements to 1; removing product B (quantity 1) deletes its line. -/
theorem removeFromCart_spec_witness :
    removeFromCart exampleCart 1 = [{ productA with quantity := 1 }, { productB with quantity := 1 }]
    ∧ removeFromCart [{ productB with quantity := 1 }] 2 = [] := by
  constructor
  · have h := (removeFromCart_spec [] [{ productB with quantity := 1 }]
      { productA with quantity := 2 } 1 rfl (by simp) (by decide)).1 (by decide)
    simpa [exampleCart] using h
  · have h := (removeFromCart_spec [] [] { productB with quantity := 1 } 2 rfl
      (by simp) (by simp)).2 rfl
    simpa using h

lemma filter_frame_map (l : List CartItem) (pid : Int) (f : CartItem → CartItem)
    (hf : ∀ it, (f it).id = it.id) :
    (l.map (fun it => if it.id == pid then f it else it)).filter (fun it => it.id != pid)
      = l.filter (fun it => it.id != pid) := by
  induction l with
  | nil => rfl
  | cons hd tl ih =>
      by_cases h : hd.id = pid
      · simpa [h, hf] using ih
      · simpa [h] using ih

/-- C10: both cart mutations are frame-preserving — the sublist of cart lines
whose product id differs from the touched id is exactly the same (same fields,
same quantities, same relative order) before and after `addToCart p` and
`removeFromCart p.id`. -/
theorem cart_frame_spec (cart : List CartItem) (p : Product) :
    (addToCart cart p).filter (fun it => it.id != p.id)
        = cart.filter (fun it => it.id != p.id)
    ∧ (removeFromCart cart p.id).filter (fun it => it.id != p.id)
        = cart.filter (fun it => it.id != p.id) := by
  constructor
  · rw [addToCart]
    cases hfind : cart.find? (fun item => item.id == p.id) with
    | some it =>
        exact filter_frame_map cart p.id _ (fun it => rfl)
    | none =>
        rw [List.filter_append]
        simp
  · cases hfind : cart.find? (fun item => item.id == p.id) with
    | some it =>
        simp only [removeFromCart, hfind]
        by_cases hq : it.quantity > 1
        · rw [if_pos hq]
          exact filter_frame_map cart p.id _ (fun it => rfl)
        · rw [if_neg hq]
          rw [List.filter_filter]
          simp
    | none =>
        simp only [removeFromCart, hfind]
        rw [List.filter_filter]
        simp

/-- `Order` from the API library (the fields the embedded handlers inspect). -/
structure Order where
  id : Int
  tableId : Int
  status : String
deriving DecidableEq, Repr

/-- JavaScript truthiness of a nullable string (`null` and `""` are falsy). -/
def jsFalsyStr : Option String → Bool
  | none => true
  | some s => s == ""

/-- JavaScript `String.prototype.trim`: strip whitespace from both ends. -/
def jsTrim (s : String) : String :=
  String.mk (((s.data.dropWhile Char.isWhitespace).reverse.dropWhile Char.isWhitespace).reverse)

/-- The toasts `handleCheckout` can raise, by their titles in the source. -/
inductive ToastKind where
  | cannotPlaceOrder
  | nameRequired
  | orderPlacedSuccessfully
  | orderSubmittedAmbiguous
  | orderSubmissionError
deriving DecidableEq, Repr

/-- Outcome of the awaited `executeApiCall(() => api.orders.create(...))`
expression inside `handleCheckout`: it either resolves (to the created order,
or to `null` — `executeApiCall` returns `null` when the underlying call
rejects), or itself throws (the `catch` branch of `handleCheckout`). -/
inductive CheckoutCallOutcome where
  | resolved (result : Option Order)
  | thrown
deriving DecidableEq, Repr

/-- The component state read by `handleCheckout` in `src/app/menu/page.tsx`. -/
structure MenuState where
  cart : List CartItem
  selectedTable : Option String
  cartCustomerName : String
  isCartOpen : Bool
deriving DecidableEq, Repr

/-- The observable outcome of one `handleCheckout` run: whether the order
creation call was issued, the final cart / name / dialog state, which toast
was raised, and the scheduled navigation (target and `setTimeout` delay). -/
structure CheckoutResult where
  networkCalled : Bool
  cart : List CartItem
  cartCustomerName : String
  isCartOpen : Bool
  toast : ToastKind
  navTarget : Option String
  navDelayMs : Option Nat
deriving DecidableEq, Repr

/-- `handleCheckout` from `src/app/menu/page.tsx`:
guard `!selectedTable || cart.length === 0` (validation toast, early return),
guard `!cartCustomerName.trim()` (name-required toast, early return); then the
order creation call. On a resolved call the cart/name/dialog are always reset,
the toast is the success one iff the result is truthy, and navigation to
`/table-orders/{table}` is scheduled after 1000 ms. If the awaited expression
throws, the catch branch also resets cart/name/dialog, raises the
submission-error toast and schedules the same navigation after 2000 ms. -/
def handleCheckout (st : MenuState) (outcome : CheckoutCallOutcome) : CheckoutResult :=
  if jsFalsyStr st.selectedTable || st.cart.length == 0 then
    { networkCalled := false, cart := st.cart, cartCustomerName := st.cartCustomerName
    , isCartOpen := st.isCartOpen, toast := ToastKind.cannotPlaceOrder
    , navTarget := none, navDelayMs := none }
  else if jsTrim st.cartCustomerName == "" then
    { networkCalled := false, cart := st.cart, cartCustomerName := st.cartCustomerName
    , isCartOpen := st.isCartOpen, toast := ToastKind.nameRequired
    , navTarget := none, navDelayMs := none }
  else
    let table := st.selectedTable.getD ""
    match outcome with
    | CheckoutCallOutcome.resolved result =>
        { networkCalled := true, cart := [], cartCustomerName := ""
        , isCartOpen := false
        , toast := if result.isSome then ToastKind.orderPlacedSuccessfully
                   else ToastKind.orderSubmittedAmbiguous
        , navTarget := some ("/table-orders/" ++ table), navDelayMs := some 1000 }
    | CheckoutCallOutcome.thrown =>
        { networkCalled := true, cart := [], cartCustomerName := ""
        , isCartOpen := false
        , toast := ToastKind.orderSubmissionError
        , navTarget := some ("/table-orders/" ++ table), navDelayMs := some 2000 }

/-- C2: a checkout attempt with an empty cart, or no table selected, or a
guest name that is blank after trimming, issues no network call and leaves
the cart exactly as it was. -/
theorem handleCheckout_guards (st : MenuState) (outcome : CheckoutCallOutcome)
    (h : st.cart = [] ∨ st.selectedTable = none ∨ jsTrim st.cartCustomerName = "") :
    (handleCheckout st outcome).networkCalled = false
    ∧ (handleCheckout st outcome).cart = st.cart := by
  rcases h with hcart | htable | hname
  · have hlen : (st.cart.length == 0) = true := by simp [hcart]
    rw [handleCheckout]
    simp [hlen]
  · have hfal : jsFalsyStr st.selectedTable = true := by simp [jsFalsyStr, htable]
    rw [handleCheckout]
    simp [hfal]
  · rw [handleCheckout]
    by_cases hg : jsFalsyStr st.selectedTable || st.cart.length == 0
    · simp [hg]
    · simp [hg, hname]

/-- Witness for `handleCheckout_guards`: an attempt with an empty cart at
table 5 with a non-blank name issues no call and the cart stays empty. -/
theorem handleCheckout_guards_witness :
    (handleCheckout { cart := [], selectedTable := some "5", cartCustomerName := "Bob"
                    , isCartOpen := false } (CheckoutCallOutcome.resolved none)).networkCalled = false
    ∧ (handleCheckout { cart := [], selectedTable := some "5", cartCustomerName := "Bob"
                      , isCartOpen := false } (CheckoutCallOutcome.resolved none)).cart = [] :=
  handleCheckout_guards _ _ (Or.inl rfl)

/-- A concrete menu-page state passing every checkout guard: one item in the
cart, table "5" selected, guest name "Bob". -/
def menuStateReady : MenuState :=
  { cart := [{ productA with quantity := 1 }], selectedTable := some "5"
  , cartCustomerName := "Bob", isCartOpen := true }

/-- A concrete order, as a successful creation result. -/
def createdOrder : Order := { id := 7, tableId := 5, status := "new" }

/-- Counterexample to C1 as stated: when the creation call resolves to a falsy
result, the run is a failure (non-success toast is raised), yet the scheduled
navigation delay is 1000 ms — exactly the success-case delay, not longer. -/
theorem handleCheckout_failure_delay_counterexample :
    (handleCheckout menuStateReady (CheckoutCallOutcome.resolved none)).toast
        ≠ ToastKind.orderPlacedSuccessfully
    ∧ (handleCheckout menuStateReady (CheckoutCallOutcome.resolved none)).navDelayMs = some 1000
    ∧ (handleCheckout menuStateReady
        (CheckoutCallOutcome.resolved (some createdOrder))).navDelayMs = some 1000
    ∧ ¬ ((handleCheckout menuStateReady (CheckoutCallOutcome.resolved none)).navDelayMs.getD 0
          > (handleCheckout menuStateReady
              (CheckoutCallOutcome.resolved (some createdOrder))).navDelayMs.getD 0) := by
  refine ⟨by decide, by decide, by decide, by decide⟩

/-- C1 amended: whenever order creation does not succeed (the call resolves to
a falsy result or throws), the cart is cleared, a non-success toast is raised,
and navigation targets the same table-view destination as on success; the
delay is longer than the success case (2000 ms vs 1000 ms) only when the call
throws — a falsy resolution navigates after the same 1000 ms as success. -/
theorem handleCheckout_failure_spec (st : MenuState) (o : Order)
    (outcome : CheckoutCallOutcome)
    (htable : jsFalsyStr st.selectedTable = false)
    (hcart : st.cart ≠ [])
    (hname : jsTrim st.cartCustomerName ≠ "")
    (hfail : outcome = CheckoutCallOutcome.resolved none
             ∨ outcome = CheckoutCallOutcome.thrown) :
    (handleCheckout st outcome).cart = []
    ∧ (handleCheckout st outcome).toast ≠ ToastKind.orderPlacedSuccessfully
    ∧ (handleCheckout st outcome).navTarget
        = (handleCheckout st (CheckoutCallOutcome.resolved (some o))).navTarget
    ∧ (handleCheckout st outcome).navDelayMs
        = some (if outcome = CheckoutCallOutcome.thrown then 2000 else 1000)
    ∧ (handleCheckout st (CheckoutCallOutcome.resolved (some o))).navDelayMs = some 1000
    ∧ (handleCheckout st (CheckoutCallOutcome.resolved (some o))).toast
        = ToastKind.orderPlacedSuccessfully := by
  have hlen : (st.cart.length == 0) = false := by
    cases hc : st.cart with
    | nil => exact absurd hc hcart
    | cons a l => rfl
  have hguard : (jsFalsyStr st.selectedTable || st.cart.length == 0) = false := by
    rw [htable, hlen]; rfl
  have hname' : (jsTrim st.cartCustomerName == "") = false := by
    simpa using hname
  rcases hfail with hf | hf <;> subst hf <;>
    simp [handleCheckout, hguard, hname']

/-- Witness for `handleCheckout_failure_spec`: on the ready state, a thrown
call clears the cart, raises the error toast and schedules navigation to
`/table-orders/5` after 2000 ms, while success navigates after 1000 ms. -/
theorem handleCheckout_failure_spec_witness :
    (handleCheckout menuStateReady CheckoutCallOutcome.thrown).cart = []
    ∧ (handleCheckout menuStateReady CheckoutCallOutcome.thrown).toast
        ≠ ToastKind.orderPlacedSuccessfully
    ∧ (handleCheckout menuStateReady CheckoutCallOutcome.thrown).navTarget
        = (handleCheckout menuStateReady
            (CheckoutCallOutcome.resolved (some createdOrder))).navTarget
    ∧ (handleCheckout menuStateReady CheckoutCallOutcome.thrown).navDelayMs
        = some (if (CheckoutCallOutcome.thrown : CheckoutCallOutcome)
                   = CheckoutCallOutcome.thrown then 2000 else 1000)
    ∧ (handleCheckout menuStateReady
        (CheckoutCallOutcome.resolved (some createdOrder))).navDelayMs = some 1000
    ∧ (handleCheckout menuStateReady
        (CheckoutCallOutcome.resolved (some createdOrder))).toast
        = ToastKind.orderPlacedSuccessfully :=
  handleCheckout_failure_spec menuStateReady createdOrder CheckoutCallOutcome.thrown
    (by decide) (by decide) (by decide) (Or.inr rfl)

/-- The status progression used by the dashboard orders page, in display
order: new, preparing, ready, delivered, paid. -/
def orderStatusSeq : List String := ["new", "preparing", "ready", "delivered", "paid"]

/-- The successor computation inlined in `handleQuickStatusUpdate`
(`src/app/dashboard/orders/page.tsx`): the `switch` on `currentStatus` that
chooses `newStatus`, returning early (no successor) in the `default` case. -/
def nextStatus (currentStatus : String) : Option String :=
  match currentStatus with
  | "new" => some "preparing"
  | "preparing" => some "ready"
  | "ready" => some "delivered"
  | "delivered" => some "paid"
  | _ => none

/-- `handleQuickStatusUpdate` from `src/app/dashboard/orders/page.tsx`:
if the switch yields no successor the handler returns before any API call;
otherwise the status-update call is issued and, when it returns a truthy
result, the order list is mapped replacing the order with the result.
Returns the resulting order list and whether the network call was issued. -/
def handleQuickStatusUpdate (orders : List Order) (orderId : Int)
    (currentStatus : String) (apiResult : Option Order) : List Order × Bool :=
  match nextStatus currentStatus with
  | none => (orders, false)
  | some _ =>
      match apiResult with
      | some result => ((orders.map fun o => if o.id == orderId then result else o), true)
      | none => (orders, true)

/-- C6: the successor function realises the fixed total order
new < preparing < ready < delivered < paid — each status maps to the next
entry of the sequence and `paid` has no successor — and the quick-status
handler performs no transition (and no call) for a paid order. -/
theorem nextStatus_spec :
    (∀ i : Fin 5, nextStatus (orderStatusSeq.get i)
        = if h : i.val + 1 < 5 then some (orderStatusSeq.get ⟨i.val + 1, h⟩) else none)
    ∧ nextStatus "new" = some "preparing"
    ∧ nextStatus "paid" = none
    ∧ ∀ (orders : List Order) (orderId : Int) (apiResult : Option Order),
        handleQuickStatusUpdate orders orderId "paid" apiResult = (orders, false) := by
  refine ⟨by decide, rfl, rfl, ?_⟩
  intro orders orderId apiResult
  rfl

/-- An item of the dashboard create-order form's draft list
(`newOrder.items`, shape `{ productId, quantity }`). -/
structure DraftItem where
  productId : Int
  quantity : Int
deriving DecidableEq, Repr

/-- `findIndex`-then-update-in-place on a copy, as done by
`handleAddProductToOrder`: the first item whose `productId` matches gets its
quantity increased by `q`; everything else is kept as is. -/
def addQtyFirstMatch (items : List DraftItem) (pid q : Int) : List DraftItem :=
  match items with
  | [] => []
  | it :: rest =>
      if it.productId == pid then { it with quantity := it.quantity + q } :: rest
      else it :: addQtyFirstMatch rest pid q

/-- `handleAddProductToOrder` from `src/app/dashboard/orders/page.tsx`:
early return when `!selectedProduct` (null or 0) or `selectedQuantity <= 0`;
when an entry with the selected product id exists (`findIndex >= 0`) its
quantity is increased by `selectedQuantity`; otherwise a new entry
`{ productId, quantity: selectedQuantity }` is appended. -/
def handleAddProductToOrder : List DraftItem → Option Int → Int → List DraftItem
  | items, none, _ => items
  | items, some pid, q =>
      if pid = 0 ∨ q ≤ 0 then items
      else if items.any (fun it => it.productId == pid) then
        addQtyFirstMatch items pid q
      else items ++ [{ productId := pid, quantity := q }]

/-- `handleRemoveProductFromOrder` from `src/app/dashboard/orders/page.tsx`:
filter out every entry with the given product id. -/
def handleRemoveProductFromOrder (items : List DraftItem) (productId : Int) : List DraftItem :=
  items.filter (fun it => it.productId != productId)

lemma nodup_split_ne (l₁ l₂ : List DraftItem) (it : DraftItem)
    (hnd : (((l₁ ++ it :: l₂)).map DraftItem.productId).Nodup) :
    (∀ x ∈ l₁, x.productId ≠ it.productId) ∧ (∀ x ∈ l₂, x.productId ≠ it.productId) := by
  rw [List.map_append, List.map_cons, List.nodup_append] at hnd
  obtain ⟨h₁, h₂, hdisj⟩ := hnd
  constructor
  · intro x hx heq
    exact hdisj (List.mem_map_of_mem DraftItem.productId hx)
      (heq ▸ List.mem_cons_self _ _)
  · intro x hx heq
    rw [List.nodup_cons] at h₂
    exact h₂.1 (heq ▸ List.mem_map_of_mem DraftItem.productId hx)

lemma addQtyFirstMatch_map_id (l : List DraftItem) (pid q : Int) :
    (addQtyFirstMatch l pid q).map DraftItem.productId = l.map DraftItem.productId := by
  induction l with
  | nil => rfl
  | cons hd tl ih =>
      rw [addQtyFirstMatch]
      cases hb : (hd.productId == pid) with
      | true => simp [hb]
      | false => simp [hb, ih]

lemma addQtyFirstMatch_split (l₁ l₂ : List DraftItem) (it : DraftItem) (pid q : Int)
    (h₁ : ∀ x ∈ l₁, x.productId ≠ pid) (hit : it.productId = pid) :
    addQtyFirstMatch (l₁ ++ it :: l₂) pid q
      = l₁ ++ { it with quantity := it.quantity + q } :: l₂ := by
  induction l₁ with
  | nil => simp [addQtyFirstMatch, hit]
  | cons hd tl ih =>
      have hhd : (hd.productId == pid) = false := by
        simpa using h₁ hd (List.mem_cons_self hd tl)
      rw [List.cons_append, addQtyFirstMatch, hhd]
      simp only [Bool.false_eq_true, if_false]
      rw [ih (fun x hx => h₁ x (List.mem_cons_of_mem hd hx))]
      rfl

/-- C9: on a draft list with pairwise-distinct product ids,
`handleAddProductToOrder` preserves the distinctness; when the selected
product already has an entry it increments that entry's quantity by the
selected quantity (not by 1) instead of appending a duplicate; and
`handleRemoveProductFromOrder` deletes the whole entry for the id regardless
of its quantity. -/
theorem draftOrder_items_spec (items : List DraftItem) (pid q : Int)
    (hnd : (items.map DraftItem.productId).Nodup) (hpid : pid ≠ 0) (hq : 0 < q) :
    ((handleAddProductToOrder items (some pid) q).map DraftItem.productId).Nodup
    ∧ (∀ l₁ it l₂, items = l₁ ++ it :: l₂ → it.productId = pid →
        handleAddProductToOrder items (some pid) q
          = l₁ ++ { it with quantity := it.quantity + q } :: l₂)
    ∧ (∀ l₁ it l₂, items = l₁ ++ it :: l₂ → it.productId = pid →
        handleRemoveProductFromOrder items pid = l₁ ++ l₂) := by
  have hguard : ¬(pid = 0 ∨ q ≤ 0) := by
    push_neg
    exact ⟨hpid, by omega⟩
  refine ⟨?_, ?_, ?_⟩
  · simp only [handleAddProductToOrder, if_neg hguard]
    by_cases hany : (items.any (fun it => it.productId == pid)) = true
    · rw [if_pos hany, addQtyFirstMatch_map_id]
      exact hnd
    · rw [if_neg hany]
      have hno : ∀ x ∈ items, x.productId ≠ pid := by
        intro x hx hx'
        apply hany
        rw [List.any_eq_true]
        exact ⟨x, hx, by simpa using hx'⟩
      rw [List.map_append, List.map_cons, List.map_nil, List.nodup_append]
      refine ⟨hnd, List.nodup_singleton _, ?_⟩
      intro a ha hb
      have hb' : a = pid := by simpa using hb
      obtain ⟨x, hx, hxa⟩ := List.mem_map.mp ha
      exact hno x hx (by rw [hxa, hb'])
  · intro l₁ it l₂ hsplit hit
    subst hsplit
    have hsp := nodup_split_ne l₁ l₂ it hnd
    have hany : ((l₁ ++ it :: l₂).any (fun x => x.productId == pid)) = true := by
      rw [List.any_eq_true]
      exact ⟨it, by simp, by simp [hit]⟩
    simp only [handleAddProductToOrder, if_neg hguard]
    rw [if_pos hany]
    exact addQtyFirstMatch_split l₁ l₂ it pid q (fun x hx => hit ▸ hsp.1 x hx) hit
  · intro l₁ it l₂ hsplit hit
    subst hsplit
    have hsp := nodup_split_ne l₁ l₂ it hnd
    rw [handleRemoveProductFromOrder, List.filter_append, List.filter_cons]
    have hdrop : (it.productId != pid) = false := by simp [hit]
    rw [hdrop]
    have hl₁ : l₁.filter (fun x => x.productId != pid) = l₁ :=
      List.filter_eq_self.mpr (fun x hx => by simpa using hit ▸ hsp.1 x hx)
    have hl₂ : l₂.filter (fun x => x.productId != pid) = l₂ :=
      List.filter_eq_self.mpr (fun x hx => by simpa using hit ▸ hsp.2 x hx)
    rw [hl₁, hl₂]
    simp

/-- Witness for `draftOrder_items_spec`: on the draft `[(1,2), (2,1)]`,
adding product 1 with selected quantity 3 yields `[(1,5), (2,1)]`, and
removing product 1 deletes its whole entry (quantity 2) leaving `[(2,1)]`. -/
theorem draftOrder_items_spec_witness :
    handleAddProductToOrder
        [{ productId := 1, quantity := 2 }, { productId := 2, quantity := 1 }] (some 1) 3
      = [{ productId := 1, quantity := 5 }, { productId := 2, quantity := 1 }]
    ∧ handleRemoveProductFromOrder
        [{ productId := 1, quantity := 2 }, { productId := 2, quantity := 1 }] 1
      = [{ productId := 2, quantity := 1 }] := by
  constructor
  · have h := (draftOrder_items_spec
        [{ productId := 1, quantity := 2 }, { productId := 2, quantity := 1 }] 1 3
        (by decide) (by decide) (by decide)).2.1
        [] { productId := 1, quantity := 2 } [{ productId := 2, quantity := 1 }] rfl rfl
    simpa using h
  · have h := (draftOrder_items_spec
        [{ productId := 1, quantity := 2 }, { productId := 2, quantity := 1 }] 1 3
        (by decide) (by decide) (by decide)).2.2
        [] { productId := 1, quantity := 2 } [{ productId := 2, quantity := 1 }] rfl rfl
    simpa using h

/-- The browser-side state touched by the token service and the response
interceptor: the cached `auth_token` in localStorage, the history of
`window.location.href` assignments (each assignment appends one entry), and
whether `window` is defined (client vs server rendering). -/
structure BrowserState where
  authToken : Option String
  redirects : List String
  hasWindow : Bool
deriving DecidableEq, Repr

/-- `tokenService.removeToken` from the API library: clears the cached token
when `window` is defined, otherwise a no-op. -/
def tokenServiceRemoveToken (st : BrowserState) : BrowserState :=
  if st.hasWindow then { st with authToken := none } else st

/-- The error arm of `api.interceptors.response.use`: on a 401 response
status the cached token is removed and, when `window` is defined,
`window.location.href` is set to `/login`; in every case the error is
re-rejected (the returned `Bool` is the rejection flag). The request's URL
is taken as an argument and never inspected — the interceptor is
endpoint-agnostic. -/
def onResponseError (_url : String) (status : Option Nat) (st : BrowserState) :
    BrowserState × Bool :=
  if status == some 401 then
    let st₁ := tokenServiceRemoveToken st
    let st₂ := if st₁.hasWindow then { st₁ with redirects := st₁.redirects ++ ["/login"] }
               else st₁
    (st₂, true)
  else (st, true)

/-- C7: for every 401 response — whatever endpoint (`url`) produced it and
whatever the prior browser state — the interceptor clears the cached token
and appends exactly one `/login` redirect, and it still rejects the promise. -/
theorem interceptor_401_spec (url : String) (st : BrowserState)
    (hw : st.hasWindow = true) :
    ((onResponseError url (some 401) st).1.authToken = none)
    ∧ (onResponseError url (some 401) st).1.redirects = st.redirects ++ ["/login"]
    ∧ ((onResponseError url (some 401) st).1.redirects.count "/login"
        = st.redirects.count "/login" + 1)
    ∧ (onResponseError url (some 401) st).2 = true := by
  simp [onResponseError, tokenServiceRemoveToken, hw]

/-- Witness for `interceptor_401_spec`: a 401 from `/orders` in a browser
holding token "t" clears the token and issues the single `/login` redirect. -/
theorem interceptor_401_spec_witness :
    ((onResponseError "/orders" (some 401)
        { authToken := some "t", redirects := [], hasWindow := true }).1.authToken = none)
    ∧ (onResponseError "/orders" (some 401)
        { authToken := some "t", redirects := [], hasWindow := true }).1.redirects
        = ([] : List String) ++ ["/login"]
    ∧ ((onResponseError "/orders" (some 401)
        { authToken := some "t", redirects := [], hasWindow := true }).1.redirects.count "/login"
        = ([] : List String).count "/login" + 1)
    ∧ (onResponseError "/orders" (some 401)
        { authToken := some "t", redirects := [], hasWindow := true }).2 = true :=
  interceptor_401_spec "/orders" { authToken := some "t", redirects := [], hasWindow := true } rfl

/-- The `details` field of a structured error body: either a string or a
record of validation messages (modelled by the list of its values, the only
thing `Object.values(details).join(", ")` reads). -/
inductive ErrDetails where
  | strDetails (s : String)
  | recordDetails (vals : List String)
deriving DecidableEq, Repr

/-- A structured error body `{ error?, details? }` as destructured by
`handleApiError`. -/
structure ErrorBody where
  error : Option String
  details : Option ErrDetails
deriving DecidableEq, Repr

/-- The part of an axios error response that `handleApiError` reads:
`response.status` and `response.data` (absent/falsy body as `none`). -/
structure AxiosResponseInfo where
  status : Nat
  data : Option ErrorBody
deriving DecidableEq, Repr

/-- A value thrown into `handleApiError`: an axios error (message, optional
response, whether a request was made), a plain `Error` instance, or any
non-`Error` value. -/
inductive ThrownValue where
  | axiosError (message : String) (response : Option AxiosResponseInfo) (hasRequest : Bool)
  | jsError (message : String)
  | nonError
deriving DecidableEq, Repr

/-- JavaScript truthiness of the destructured `error` field (a string:
missing or empty is falsy). -/
def jsTruthyOptStr : Option String → Bool
  | some s => !(s == "")
  | none => false

/-- The `switch (axiosError.response.status)` of `handleApiError`:
fixed messages for 400/401/403/404/500, else the generic code message. -/
def httpStatusMessage (status : Nat) : String :=
  if status = 400 then "Bad request. Please check your input."
  else if status = 401 then "Unauthorized. Please log in again."
  else if status = 403 then "Forbidden. You do not have permission to access this resource."
  else if status = 404 then "Resource not found."
  else if status = 500 then "Server error. Please try again later."
  else "Error: " ++ toString status

/-- `handleApiError` from the API library. The source's early returns are
modelled in order: the "Network Error" message check; the structured-body
block (truthy `error` field, else truthy `details` — a non-empty string is
returned verbatim, a record has its values joined with ", "); the bare
HTTP-status switch whenever a response exists; the request-but-no-response
connectivity message; and the final generic arm (`error instanceof Error ?
error.message : "An unknown error occurred"` — an axios error falling
through is an `Error` and yields its message). -/
def handleApiError (error : ThrownValue) : String :=
  match error with
  | ThrownValue.axiosError message response hasRequest =>
      if message == "Network Error" then
        "Cannot connect to the server. Please check your connection or try again later."
      else
        let fromBody : Option String :=
          match response with
          | some resp =>
              match resp.data with
              | some body =>
                  if jsTruthyOptStr body.error then some (body.error.getD "")
                  else
                    match body.details with
                    | some (ErrDetails.strDetails s) => if s == "" then none else some s
                    | some (ErrDetails.recordDetails vals) =>
                        some (String.intercalate ", " vals)
                    | none => none
              | none => none
          | none => none
        match fromBody with
        | some msg => msg
        | none =>
            match response with
            | some resp => httpStatusMessage resp.status
            | none =>
                if hasRequest then "Network error. Please check your connection."
                else message
  | ThrownValue.jsError message => message
  | ThrownValue.nonError => "An unknown error occurred"

/-- C8: an HTTP error response carrying no structured body maps to the fixed
per-status message — individual texts for 400/401/403/404/500 and the generic
code message for any other status — and an unknown thrown value maps to its
message when it is an `Error` and to the generic fallback otherwise. -/
theorem handleApiError_spec (message : String) (status : Nat) (hasRequest : Bool)
    (hmsg : message ≠ "Network Error") :
    handleApiError (ThrownValue.axiosError message
        (some { status := status, data := none }) hasRequest)
      = httpStatusMessage status
    ∧ httpStatusMessage 400 = "Bad request. Please check your input."
    ∧ httpStatusMessage 401 = "Unauthorized. Please log in again."
    ∧ httpStatusMessage 403 = "Forbidden. You do not have permission to access this resource."
    ∧ httpStatusMessage 404 = "Resource not found."
    ∧ httpStatusMessage 500 = "Server error. Please try again later."
    ∧ (status ∉ ([400, 401, 403, 404, 500] : List Nat) →
        httpStatusMessage status = "Error: " ++ toString status)
    ∧ (∀ m, handleApiError (ThrownValue.jsError m) = m)
    ∧ handleApiError ThrownValue.nonError = "An unknown error occurred" := by
  have hb : (message == "Network Error") = false := by simpa using hmsg
  refine ⟨?_, rfl, rfl, rfl, rfl, rfl, ?_, fun m => rfl, rfl⟩
  · simp [handleApiError, hb]
  · intro hs
    have h400 : status ≠ 400 := by intro h; exact hs (by simp [h])
    have h401 : status ≠ 401 := by intro h; exact hs (by simp [h])
    have h403 : status ≠ 403 := by intro h; exact hs (by simp [h])
    have h404 : status ≠ 404 := by intro h; exact hs (by simp [h])
    have h500 : status ≠ 500 := by intro h; exact hs (by simp [h])
    simp [httpStatusMessage, h400, h401, h403, h404, h500]

/-- Witness for `handleApiError_spec`: a bodyless 404 response (message
"Request failed with status code 404") maps to "Resource not found.", a
bodyless 418 maps to the generic code message, a plain `Error` maps to its
message, and a non-`Error` value to the generic fallback. -/
theorem handleApiError_spec_witness :
    handleApiError (ThrownValue.axiosError "Request failed with status code 404"
        (some { status := 404, data := none }) true)
      = httpStatusMessage 404
    ∧ (418 ∉ ([400, 401, 403, 404, 500] : List Nat) →
        httpStatusMessage 418 = "Error: " ++ toString 418)
    ∧ handleApiError (ThrownValue.jsError "boom") = "boom"
    ∧ handleApiError ThrownValue.nonError = "An unknown error occurred" := by
  have h := handleApiError_spec "Request failed with status code 404" 404 true (by decide)
  exact ⟨h.1, (handleApiError_spec "Request failed with status code 404" 418 true
    (by decide)).2.2.2.2.2.2.1, h.2.2.2.2.2.2.2.1 "boom", h.2.2.2.2.2.2.2.2⟩
